import Mathlib

/-!
Verification of the alert-polling service (`src/alert_system.cpp`) against its
natural-language specification.  The C++ program polls a JSON status feed for a
configured region and drives sound/dialog notifications on alert transitions.
The shallow embedding below translates the program's decision logic, fetch
handling, loop iteration and startup checks into executable Lean definitions.
-/

namespace AlertsService

/-- JSON values, in the subset the program manipulates (`Json::Value` of
jsoncpp restricted to null, strings, integers and objects; arrays never occur
in configs or feed documents the program reads). -/
inductive Json where
  | null : Json
  | str : String → Json
  | num : Int → Json
  | obj : List (String × Json) → Json
deriving Repr

/-- `Json::Value::empty()`: true for the null value and for empty objects.
This is the test `data.empty()` used by `check_alerts` (line 119) to detect the
failure indicator returned by `fetch_data`. -/
def Json.isEmpty : Json → Bool
  | .null => true
  | .str _ => false
  | .num _ => false
  | .obj fields => fields.isEmpty

/-- `operator[]` with a string key, as the feed path uses it (line 123): the
member when the receiver is an object containing the key, and the null value
for a missing member or a null receiver.  On a string or numeric receiver
jsoncpp's `operator[]` fails its assertion and throws; the model returns null
there, which only widens the no-op cases the loop theorems cover — the
startup path, where this matters, goes through `Json.memberE` instead. -/
def Json.member : Json → String → Json
  | .obj fields, key => (fields.lookup key).getD Json.null
  | _, _ => Json.null

/-- `Json::Value::asString()`, as the feed path uses it (line 123): the string
itself for string values and the empty string for the null value, the only
receivers the loop path reaches through `Json.member` on the documents its
theorems constrain.  Other receivers are version-dependent in jsoncpp; the
startup path goes through `Json.asStringE` instead. -/
def Json.asString : Json → String
  | .str s => s
  | _ => ""

/-- `operator[]` with a string key on the config root (lines 174–178), with
jsoncpp's failure behaviour: the member (or null when missing) for an object
root, null for a null root, and a thrown assertion failure for a string or
numeric root, modelled as `Except.error`. -/
def Json.memberE : Json → String → Except Unit Json
  | .obj fields, key => Except.ok ((fields.lookup key).getD Json.null)
  | .null, _ => Except.ok Json.null
  | _, _ => Except.error ()

/-- `Json::Value::asString()` on a config member (lines 174–177), with
jsoncpp's failure behaviour: the string itself for strings, the empty string
for null, and an extraction failure otherwise (numeric members throw in old
jsoncpp and render as decimal text in modern versions; no theorem relies on
that case, which the model folds into `Except.error`). -/
def Json.asStringE : Json → Except Unit String
  | .str s => Except.ok s
  | .null => Except.ok ""
  | _ => Except.error ()

/-- `Json::Value::asInt()` on a config member (line 178), with jsoncpp's
failure behaviour: the integer itself for numeric values, 0 for null, and a
thrown "not convertible to Int" for strings and objects, modelled as
`Except.error`. -/
def Json.asIntE : Json → Except Unit Int
  | .num n => Except.ok n
  | .null => Except.ok 0
  | _ => Except.error ()

/-- Outcome of `readStream >> jsonData` on a non-empty buffer (line 63): either
the parsed document, or a parse error, in which case jsoncpp throws — the
function's own doc comment says "This function throws an exception if there is
an error parsing the fetched JSON data". -/
inductive ParseOutcome where
  | parsed : Json → ParseOutcome
  | malformed : ParseOutcome
deriving Repr

/-- The environment of one fetch attempt: the bytes curl appended into
`readBuffer` via `WriteCallback` (empty when the transport delivered nothing),
and how jsoncpp parses that buffer. -/
structure FetchAttempt where
  readBuffer : String
  parseOutcome : ParseOutcome
deriving Repr

/-- `fetch_data` (lines 40–65): if `readBuffer` is empty the function logs and
returns `Json::Value()` — the null value, the program's failure indicator.
Otherwise it parses the buffer; a malformed buffer makes `operator>>` throw and
the exception escapes `fetch_data` (modelled as `Except.error ()`), while a
well-formed buffer yields the whole parsed document. -/
def fetch_data (attempt : FetchAttempt) : Except Unit Json :=
  if attempt.readBuffer.isEmpty then
    Except.ok Json.null
  else
    match attempt.parseOutcome with
    | .parsed j => Except.ok j
    | .malformed => Except.error ()

/-- The two alert events of the spec: `Raise` for a new alert, `Clear` for a
cleared one.  The program does not reify events; they correspond to the two
notification branches of `check_alerts`. -/
inductive AlertEvent where
  | Raise : AlertEvent
  | Clear : AlertEvent
deriving Repr, DecidableEq

/-- The decision step inlined in `check_alerts` (lines 125–141), extracted as a
pure function over the flag `alert_active` (`false` = Inactive, `true` =
Active) and the observed status string: the next flag and the emitted event. -/
def decideStep (alert_active : Bool) (status : String) : Bool × Option AlertEvent :=
  if alert_active = false ∧ status = "full" then
    (true, some AlertEvent.Raise)
  else if alert_active = true ∧ (status = "null" ∨ status = "no_data") then
    (false, some AlertEvent.Clear)
  else
    (alert_active, none)

/-- GTK message severity of the dialogs the program shows: `MESSAGE_WARNING`
for a raise, `MESSAGE_INFO` for a clear. -/
inductive MessageType where
  | warning : MessageType
  | info : MessageType
deriving Repr, DecidableEq

/-- One notifier invocation: the detached sound thread's file plus the detached
dialog thread's title, body and severity (lines 127–132 and 135–140). -/
structure Notification where
  sound : String
  title : String
  message : String
  msgType : MessageType
deriving Repr, DecidableEq

/-- The sound-and-dialog pair dispatched on a raise (lines 127–132): the
`alert_on` sound in a detached thread, and a detached `MESSAGE_WARNING` dialog
with the air-raid title and the region in the body. -/
def raiseNotification (alert_on region : String) : Notification :=
  ⟨alert_on, "ВСІ В УКРИТТЯ!!!",
   "Увага! Повітряна тривога в регіоні: " ++ region ++ "!",
   MessageType.warning⟩

/-- The sound-and-dialog pair dispatched on a clear (lines 135–140): the
`alert_off` sound in a detached thread, and a detached `MESSAGE_INFO` dialog
with the all-clear title and the region in the body. -/
def clearNotification (alert_off region : String) : Notification :=
  ⟨alert_off, "МОЖНА ПОВЕРТАТИСЬ НА РОБОЧІ МІСЦЯ!",
   "Відбій повітряної тривоги в регіоні: " ++ region ++ "!",
   MessageType.info⟩

/-- The observable effects of one iteration of the `while (true)` loop in
`check_alerts` (lines 117–144): the value of `alert_active` after the
iteration, the notifications dispatched (each is one sound-and-dialog pair),
and the seconds slept at the end — `none` when the `continue` on line 121
skipped the `sleep_for` on line 143. -/
structure CycleResult where
  alert_active : Bool
  notifications : List Notification
  sleptSeconds : Option Int
deriving Repr, DecidableEq

/-- The alert event a cycle's notifications represent: the warning profile is
the raise notification, the informational profile the clear notification. -/
def CycleResult.event (r : CycleResult) : Option AlertEvent :=
  match r.notifications with
  | [] => none
  | n :: _ =>
    match n.msgType with
    | .warning => some AlertEvent.Raise
    | .info => some AlertEvent.Clear

/-- One iteration of `check_alerts` (lines 117–144): fetch, test the failure
indicator with `empty()` (on failure `continue` — no status read, no state
change, no notification, and no sleep), otherwise extract
`data[region].asString()` and run the inline decision: raise when inactive and
"full", clear when active and "null"/"no_data", otherwise fall through; then
sleep `update_interval` seconds.  A parse exception in `fetch_data` propagates
and kills the loop (`Except.error`). -/
def checkAlertsCycle (alert_on alert_off : String) (update_interval : Int)
    (region : String) (attempt : FetchAttempt) (alert_active : Bool) :
    Except Unit CycleResult :=
  match fetch_data attempt with
  | .error e => .error e
  | .ok data =>
    if data.isEmpty then
      .ok ⟨alert_active, [], none⟩
    else
      let status := (data.member region).asString
      if alert_active = false ∧ status = "full" then
        .ok ⟨true, [raiseNotification alert_on region], some update_interval⟩
      else if alert_active = true ∧ (status = "null" ∨ status = "no_data") then
        .ok ⟨false, [clearNotification alert_off region], some update_interval⟩
      else
        .ok ⟨alert_active, [], some update_interval⟩

/-- The status string a cycle observes, when it completes a fetch that passes
the `empty()` test: `data[region].asString()` (line 123). -/
def observedStatus (attempt : FetchAttempt) (region : String) : Option String :=
  match fetch_data attempt with
  | .error _ => none
  | .ok data => if data.isEmpty then none else some ((data.member region).asString)

/-- Run the `check_alerts` loop over a finite prefix of fetch attempts from a
given flag, collecting each iteration's result and the final flag; `none` when
a parse exception kills the loop. -/
def runCycles (alert_on alert_off : String) (update_interval : Int) (region : String) :
    List FetchAttempt → Bool → Option (List CycleResult × Bool)
  | [], alert_active => some ([], alert_active)
  | attempt :: rest, alert_active =>
    match checkAlertsCycle alert_on alert_off update_interval region attempt alert_active with
    | .error _ => none
    | .ok r =>
      (runCycles alert_on alert_off update_interval region rest r.alert_active).map
        (fun p => (r :: p.1, p.2))

/-- The values `main` extracts from the config document (lines 174–178) and
hands to the polling loop: the globals `region`, `alert_on`, `alert_off`,
`data_url` and `update_interval`. -/
structure LoopEntry where
  region : String
  alert_on : String
  alert_off : String
  data_url : String
  update_interval : Int
deriving Repr, DecidableEq

/-- The five field extractions of lines 174–178, in source order, each through
jsoncpp's throwing accessors: the first extraction that throws aborts the rest
(the exception propagates out of `main`, which has no handler). -/
def extractConfig (config : Json) : Except Unit LoopEntry := do
  let region ← (← config.memberE "region").asStringE
  let alert_on ← (← config.memberE "alert_on").asStringE
  let alert_off ← (← config.memberE "alert_off").asStringE
  let data_url ← (← config.memberE "data_url").asStringE
  let update_interval ← (← config.memberE "update_interval").asIntE
  return ⟨region, alert_on, alert_off, data_url, update_interval⟩

/-- What `main` does, as seen from outside: print usage and return 1 when
`argc < 2`; report and return 1 when the config file cannot be opened; die on
an uncaught jsoncpp exception when a field extraction throws; otherwise call
`check_alerts` with the extracted fields, which loops forever. -/
inductive MainResult where
  | usageError : MainResult
  | openError : MainResult
  | crashed : MainResult
  | entersLoop : LoopEntry → MainResult
deriving Repr, DecidableEq

/-- The value `return`ed by each `main` outcome, when one is: both error paths
`return 1`; an uncaught extraction exception terminates the process abnormally
without returning; `entersLoop` never returns (the loop has no exit). -/
def MainResult.exitStatus : MainResult → Option Int
  | .usageError => some 1
  | .openError => some 1
  | .crashed => none
  | .entersLoop _ => none

/-- `main` (lines 161–183): `argv` is the argument vector (program name
first), `readFile` maps a path to the parsed JSON document of the file, or
`none` when the file cannot be opened.  No field value is validated: whatever
the five extractions of lines 174–178 yield — if they all complete without
throwing — is passed straight to `check_alerts`. -/
def main (argv : List String) (readFile : String → Option Json) : MainResult :=
  match argv with
  | _prog :: path :: _ =>
    match readFile path with
    | none => MainResult.openError
    | some config =>
      match extractConfig config with
      | .error _ => MainResult.crashed
      | .ok entry => MainResult.entersLoop entry
  | _ => MainResult.usageError

/-- The notifications the loop dispatches for each decision outcome: none for
a no-op, the raise pair for a Raise, the clear pair for a Clear. -/
def notificationsFor (alert_on alert_off region : String) :
    Option AlertEvent → List Notification
  | none => []
  | some AlertEvent.Raise => [raiseNotification alert_on region]
  | some AlertEvent.Clear => [clearNotification alert_off region]

/-- A feed document for region "kyiv" with the given status, together with the
response text it was parsed from. -/
def kyivAttempt (status : String) : FetchAttempt :=
  ⟨"\x7b\"kyiv\": \"" ++ status ++ "\"\x7d",
   ParseOutcome.parsed (Json.obj [("kyiv", Json.str status)])⟩

/-- A config-file environment holding one config document whose
`update_interval` is non-positive and whose `region` and `data_url` are empty:
every field the spec says must be rejected at startup. -/
def invalidConfigFs : String → Option Json :=
  fun path =>
    if path = "bad_config.json" then
      some (Json.obj
        [("region", Json.str ""), ("alert_on", Json.str "on.mp3"),
         ("alert_off", Json.str "off.mp3"), ("data_url", Json.str ""),
         ("update_interval", Json.num 0)])
    else none

/-- The well-formed feed document for region "lviv" only: it lacks the
configured region "kyiv". -/
def lvivDoc : Json := Json.obj [("lviv", Json.str "full")]

/-- When neither branch condition of the inline decision holds, the decision
step falls through: same flag, no event. -/
lemma decideStep_otherwise (a : Bool) (status : String)
    (h1 : ¬(a = false ∧ status = "full"))
    (h2 : ¬(a = true ∧ (status = "null" ∨ status = "no_data"))) :
    decideStep a status = (a, none) := by
  unfold decideStep
  rw [if_neg h1, if_neg h2]

/-- A completed iteration whose fetch produced a document passing the
`empty()` test behaves as the extracted decision step followed by the matching
notification dispatch and the interval sleep. -/
lemma checkAlertsCycle_success (alert_on alert_off : String) (ui : Int)
    (region : String) (att : FetchAttempt) (a : Bool) (data : Json)
    (hf : fetch_data att = Except.ok data) (hne : data.isEmpty = false) :
    checkAlertsCycle alert_on alert_off ui region att a =
      Except.ok
        ⟨(decideStep a ((data.member region).asString)).1,
         notificationsFor alert_on alert_off region
           (decideStep a ((data.member region).asString)).2,
         some ui⟩ := by
  simp only [checkAlertsCycle, hf, hne, Bool.false_eq_true, if_false, decideStep]
  split_ifs <;> rfl

/-- A completed iteration whose fetch produced the failure indicator (or any
document failing the `empty()` test) hits the `continue`: nothing observable
happens. -/
lemma checkAlertsCycle_failure (alert_on alert_off : String) (ui : Int)
    (region : String) (att : FetchAttempt) (a : Bool) (data : Json)
    (hf : fetch_data att = Except.ok data) (he : data.isEmpty = true) :
    checkAlertsCycle alert_on alert_off ui region att a =
      Except.ok ⟨a, [], none⟩ := by
  simp only [checkAlertsCycle, hf, he, if_true]

/-- When the fetch completes with a document passing the `empty()` test, the
observed status is `data[region].asString()`. -/
lemma observedStatus_ok (att : FetchAttempt) (region : String) (data : Json)
    (hf : fetch_data att = Except.ok data) (hne : data.isEmpty = false) :
    observedStatus att region = some ((data.member region).asString) := by
  simp only [observedStatus, hf, hne, Bool.false_eq_true, if_false]

/-- C1: for the decision step of the alert state machine (flag `false` =
Inactive, `true` = Active): Inactive and status "full" gives Active with a
Raise event; Active and status "null" or "no_data" gives Inactive with a Clear
event. -/
theorem decideStep_transitions :
    decideStep false "full" = (true, some AlertEvent.Raise)
    ∧ decideStep true "null" = (false, some AlertEvent.Clear)
    ∧ decideStep true "no_data" = (false, some AlertEvent.Clear) := by
  refine ⟨?_, ?_, ?_⟩ <;> decide

/-- C2: for every alert state and every status that triggers neither the raise
condition (Inactive with "full") nor the clear condition (Active with "null"
or "no_data"), the decision step returns the unchanged state and no event. -/
theorem decideStep_noop (a : Bool) (status : String)
    (h1 : ¬(a = false ∧ status = "full"))
    (h2 : ¬(a = true ∧ (status = "null" ∨ status = "no_data"))) :
    decideStep a status = (a, none) :=
  decideStep_otherwise a status h1 h2

/-- Witness for C2 at concrete no-op inputs: the unknown status "partial" in
the Inactive state, and the already-settled pairs Inactive/"null" and
Active/"full". -/
theorem decideStep_noop_witness :
    decideStep false "partial" = (false, none)
    ∧ decideStep false "null" = (false, none)
    ∧ decideStep true "full" = (true, none) :=
  ⟨decideStep_noop false "partial" (by decide) (by decide),
   decideStep_noop false "null" (by decide) (by decide),
   decideStep_noop true "full" (by decide) (by decide)⟩

/-- C3: invariant of every completed poll cycle, from any alert state: either
the state is unchanged and no notification is dispatched, or the cycle is the
Inactive-to-Active transition on observed status "full" with a Raise event, or
the Active-to-Inactive transition on "null"/"no_data" with a Clear event; and
at most one notification (sound-and-dialog pair) is dispatched per cycle. -/
theorem cycle_invariant (alert_on alert_off : String) (ui : Int)
    (region : String) (att : FetchAttempt) (a : Bool) (r : CycleResult)
    (h : checkAlertsCycle alert_on alert_off ui region att a = Except.ok r) :
    r.notifications.length ≤ 1
    ∧ ((r.alert_active = a ∧ r.notifications = [])
       ∨ (a = false ∧ r.alert_active = true
          ∧ observedStatus att region = some "full"
          ∧ r.event = some AlertEvent.Raise)
       ∨ (a = true ∧ r.alert_active = false
          ∧ (observedStatus att region = some "null"
             ∨ observedStatus att region = some "no_data")
          ∧ r.event = some AlertEvent.Clear)) := by
  cases hf : fetch_data att with
  | error e =>
      simp [checkAlertsCycle, hf] at h
  | ok data =>
      by_cases he : data.isEmpty = true
      · rw [checkAlertsCycle_failure alert_on alert_off ui region att a data hf he] at h
        injection h with h
        subst h
        exact ⟨by simp, Or.inl ⟨rfl, rfl⟩⟩
      · have hne : data.isEmpty = false := by
          cases hval : data.isEmpty
          · rfl
          · exact absurd hval he
        rw [checkAlertsCycle_success alert_on alert_off ui region att a data hf hne] at h
        injection h with h
        subst h
        rw [observedStatus_ok att region data hf hne]
        by_cases h1 : a = false ∧ (data.member region).asString = "full"
        · rw [show decideStep a ((data.member region).asString)
                = (true, some AlertEvent.Raise) from by
              unfold decideStep; rw [if_pos h1]]
          refine ⟨by simp [notificationsFor], Or.inr (Or.inl ?_)⟩
          exact ⟨h1.1, rfl, by rw [h1.2],
                 by simp [CycleResult.event, notificationsFor, raiseNotification]⟩
        · by_cases h2 : a = true
              ∧ ((data.member region).asString = "null"
                 ∨ (data.member region).asString = "no_data")
          · rw [show decideStep a ((data.member region).asString)
                  = (false, some AlertEvent.Clear) from by
                unfold decideStep; rw [if_neg h1, if_pos h2]]
            refine ⟨by simp [notificationsFor], Or.inr (Or.inr ?_)⟩
            refine ⟨h2.1, rfl, ?_,
                    by simp [CycleResult.event, notificationsFor, clearNotification]⟩
            rcases h2.2 with hs | hs
            · exact Or.inl (by rw [hs])
            · exact Or.inr (by rw [hs])
          · rw [decideStep_otherwise a ((data.member region).asString) h1 h2]
            exact ⟨by simp [notificationsFor], Or.inl ⟨rfl, rfl⟩⟩

/-- Witness for C3 at a concrete completed cycle: region "kyiv" observes
"full" from the Inactive state, giving the Raise transition. -/
theorem cycle_invariant_witness :
    (⟨true, [raiseNotification "on.mp3" "kyiv"], some 10⟩ : CycleResult).notifications.length ≤ 1
    ∧ (((⟨true, [raiseNotification "on.mp3" "kyiv"], some 10⟩ : CycleResult).alert_active = false
        ∧ (⟨true, [raiseNotification "on.mp3" "kyiv"], some 10⟩ : CycleResult).notifications = [])
       ∨ (false = false
          ∧ (⟨true, [raiseNotification "on.mp3" "kyiv"], some 10⟩ : CycleResult).alert_active = true
          ∧ observedStatus (kyivAttempt "full") "kyiv" = some "full"
          ∧ (⟨true, [raiseNotification "on.mp3" "kyiv"], some 10⟩ : CycleResult).event
            = some AlertEvent.Raise)
       ∨ (false = true
          ∧ (⟨true, [raiseNotification "on.mp3" "kyiv"], some 10⟩ : CycleResult).alert_active = false
          ∧ (observedStatus (kyivAttempt "full") "kyiv" = some "null"
             ∨ observedStatus (kyivAttempt "full") "kyiv" = some "no_data")
          ∧ (⟨true, [raiseNotification "on.mp3" "kyiv"], some 10⟩ : CycleResult).event
            = some AlertEvent.Clear)) :=
  cycle_invariant "on.mp3" "off.mp3" 10 "kyiv" (kyivAttempt "full") false
    ⟨true, [raiseNotification "on.mp3" "kyiv"], some 10⟩ (by rfl)

/-- C4: a poll cycle in which the fetcher returns the failure indicator (the
null `Json::Value`) leaves the alert state unchanged, plays no sound and
dispatches no dialog, for every alert state. -/
theorem fetch_failure_isolation (alert_on alert_off : String) (ui : Int)
    (region : String) (att : FetchAttempt) (a : Bool)
    (hf : fetch_data att = Except.ok Json.null) :
    checkAlertsCycle alert_on alert_off ui region att a = Except.ok ⟨a, [], none⟩ :=
  checkAlertsCycle_failure alert_on alert_off ui region att a Json.null hf rfl

/-- Witness for C4: a fetch attempt whose transport delivered nothing, from
the Active state. -/
theorem fetch_failure_isolation_witness :
    checkAlertsCycle "on.mp3" "off.mp3" 10 "kyiv" ⟨"", ParseOutcome.parsed Json.null⟩ true
      = Except.ok ⟨true, [], none⟩ :=
  fetch_failure_isolation "on.mp3" "off.mp3" 10 "kyiv"
    ⟨"", ParseOutcome.parsed Json.null⟩ true (by rfl)

/-- C5: from the initial state Inactive, the feed status sequence
["no_data", "full", "full", "null"] for region "kyiv" across four successful
fetch cycles yields the event sequence [None, Raise, None, Clear] and ends
Inactive. -/
theorem end_to_end_scenario :
    (runCycles "on.mp3" "off.mp3" 10 "kyiv"
        [kyivAttempt "no_data", kyivAttempt "full", kyivAttempt "full", kyivAttempt "null"]
        false).map (fun p => (p.1.map CycleResult.event, p.2))
      = some ([none, some AlertEvent.Raise, none, some AlertEvent.Clear], false) := by
  rfl

/-- Counterexample to C6: a cycle whose fetch fails does not sleep at all —
the `continue` on line 121 skips the `sleep_for` on line 143 — while a success
cycle sleeps the configured interval; the two cycle results differ, refuting
"a failure cycle sleeps the same configured interval as a success cycle". -/
theorem failure_cycle_skips_sleep_cex :
    checkAlertsCycle "on.mp3" "off.mp3" 10 "kyiv" ⟨"", ParseOutcome.parsed Json.null⟩ false
      = Except.ok ⟨false, [], none⟩
    ∧ checkAlertsCycle "on.mp3" "off.mp3" 10 "kyiv" (kyivAttempt "partial") false
      = Except.ok ⟨false, [], some 10⟩
    ∧ (Except.ok ⟨false, [], none⟩ : Except Unit CycleResult)
      ≠ Except.ok ⟨false, [], some 10⟩ := by
  refine ⟨rfl, rfl, ?_⟩
  simp

/-- C6 as amended: a completed cycle sleeps the configured interval exactly
when the fetch produced a document passing the `empty()` test; a failure
cycle skips the sleep entirely and refetches immediately. -/
theorem sleep_only_after_success (alert_on alert_off : String) (ui : Int)
    (region : String) (att : FetchAttempt) (a : Bool) (r : CycleResult)
    (h : checkAlertsCycle alert_on alert_off ui region att a = Except.ok r) :
    (observedStatus att region = none → r.sleptSeconds = none)
    ∧ (observedStatus att region ≠ none → r.sleptSeconds = some ui) := by
  cases hf : fetch_data att with
  | error e =>
      simp [checkAlertsCycle, hf] at h
  | ok data =>
      by_cases he : data.isEmpty = true
      · rw [checkAlertsCycle_failure alert_on alert_off ui region att a data hf he] at h
        injection h with h
        subst h
        simp [observedStatus, hf, he]
      · have hne : data.isEmpty = false := by simpa using he
        rw [checkAlertsCycle_success alert_on alert_off ui region att a data hf hne] at h
        injection h with h
        subst h
        simp [observedStatus, hf, hne]

/-- Witness for C6's amended theorem at a concrete failed fetch cycle. -/
theorem sleep_only_after_success_witness :
    (observedStatus ⟨"", ParseOutcome.parsed Json.null⟩ "kyiv" = none →
       (⟨true, [], none⟩ : CycleResult).sleptSeconds = none)
    ∧ (observedStatus ⟨"", ParseOutcome.parsed Json.null⟩ "kyiv" ≠ none →
       (⟨true, [], none⟩ : CycleResult).sleptSeconds = some 10) :=
  sleep_only_after_success "on.mp3" "off.mp3" 10 "kyiv"
    ⟨"", ParseOutcome.parsed Json.null⟩ true ⟨true, [], none⟩ (by rfl)

/-- Counterexample to C7: a config whose `update_interval` is 0 and whose
`region` and `data_url` are empty makes `main` enter the polling loop with
those very values; it is not rejected, nothing is reported, and no non-zero
exit happens. -/
theorem invalid_config_enters_loop_cex :
    main ["alert_system", "bad_config.json"] invalidConfigFs
      = MainResult.entersLoop ⟨"", "on.mp3", "off.mp3", "", 0⟩
    ∧ MainResult.exitStatus (main ["alert_system", "bad_config.json"] invalidConfigFs)
      = none := by
  exact ⟨rfl, rfl⟩

/-- C7 as amended: `main` performs no validation of the extracted
configuration values; whenever the file opens and parses and the five field
extractions of lines 174–178 complete without a jsoncpp exception, it enters
the polling loop with exactly the extracted values, even when
`update_interval <= 0` or `region`/`data_url` are empty — no field is
reported invalid and no non-zero exit occurs for them. -/
theorem no_config_validation (prog path : String) (rest : List String)
    (readFile : String → Option Json) (j : Json) (entry : LoopEntry)
    (hr : readFile path = some j) (he : extractConfig j = Except.ok entry) :
    main (prog :: path :: rest) readFile = MainResult.entersLoop entry := by
  simp [main, hr, he]

/-- Witness for C7's amended theorem at the invalid config document, whose
fields all extract without throwing. -/
theorem no_config_validation_witness :
    main ["alert_system", "bad_config.json"] invalidConfigFs
      = MainResult.entersLoop ⟨"", "on.mp3", "off.mp3", "", 0⟩ :=
  no_config_validation "alert_system" "bad_config.json" [] invalidConfigFs
    ((invalidConfigFs "bad_config.json").getD Json.null)
    ⟨"", "on.mp3", "off.mp3", "", 0⟩ (by rfl) (by rfl)

/-- Counterexample to C8: a non-empty malformed payload makes the parse
exception escape `fetch_data` instead of yielding the failure indicator; and
a well-formed document lacking the configured region "kyiv" is returned whole
as a success — it is not the failure indicator, and the status later
extracted from it is the empty string. -/
theorem fetch_data_no_failure_folding_cex :
    fetch_data ⟨"\x7b", ParseOutcome.malformed⟩ = Except.error ()
    ∧ fetch_data ⟨"\x7b\"lviv\": \"full\"\x7d", ParseOutcome.parsed lvivDoc⟩
        = Except.ok lvivDoc
    ∧ lvivDoc.isEmpty = false
    ∧ (lvivDoc.member "kyiv").asString = "" :=
  ⟨rfl, rfl, rfl, rfl⟩

/-- C8 as amended: `fetch_data` returns the whole parsed document, not the
region's status; it returns the null document (the failure indicator tested
with `empty()`) exactly when the response buffer is empty; and the parse
exception escapes it exactly when the buffer is non-empty and malformed — a
missing region field is never a fetch failure. -/
theorem fetch_data_characterization (att : FetchAttempt) :
    (att.readBuffer.isEmpty = true → fetch_data att = Except.ok Json.null)
    ∧ (∀ j, att.readBuffer.isEmpty = false →
         att.parseOutcome = ParseOutcome.parsed j → fetch_data att = Except.ok j)
    ∧ (fetch_data att = Except.error ()
        ↔ att.readBuffer.isEmpty = false ∧ att.parseOutcome = ParseOutcome.malformed) := by
  obtain ⟨buf, po⟩ := att
  refine ⟨?_, ?_, ?_⟩
  · intro hb
    simp [fetch_data, hb]
  · intro j hb hp
    subst hp
    simp [fetch_data, hb]
  · cases hb : buf.isEmpty <;> cases po <;> simp [fetch_data, hb]

/-- Witness for C8's amended theorem: a parsed single-string document is
passed through whole, and a malformed non-empty buffer raises. -/
theorem fetch_data_characterization_witness :
    fetch_data ⟨"x", ParseOutcome.parsed (Json.str "s")⟩ = Except.ok (Json.str "s")
    ∧ fetch_data ⟨"y", ParseOutcome.malformed⟩ = Except.error () :=
  ⟨(fetch_data_characterization ⟨"x", ParseOutcome.parsed (Json.str "s")⟩).2.1
     (Json.str "s") rfl rfl,
   (fetch_data_characterization ⟨"y", ParseOutcome.malformed⟩).2.2.mpr ⟨rfl, rfl⟩⟩

/-- C9: a fetch that yields a non-empty JSON object lacking the configured
region key extracts the empty string as status, which triggers neither
branch: for every alert state the cycle keeps the state, dispatches no
notification, and proceeds to the normal sleep. -/
theorem missing_region_noop (alert_on alert_off : String) (ui : Int)
    (region : String) (a : Bool) (buf : String) (fields : List (String × Json))
    (hbuf : buf.isEmpty = false) (hfields : fields.isEmpty = false)
    (hmiss : fields.lookup region = none) :
    ((Json.obj fields).member region).asString = ""
    ∧ checkAlertsCycle alert_on alert_off ui region
        ⟨buf, ParseOutcome.parsed (Json.obj fields)⟩ a
        = Except.ok ⟨a, [], some ui⟩ := by
  have hstat : ((Json.obj fields).member region).asString = "" := by
    simp [Json.member, hmiss, Json.asString]
  refine ⟨hstat, ?_⟩
  have hf : fetch_data ⟨buf, ParseOutcome.parsed (Json.obj fields)⟩
      = Except.ok (Json.obj fields) := by
    simp [fetch_data, hbuf]
  have hne : (Json.obj fields).isEmpty = false := hfields
  rw [checkAlertsCycle_success alert_on alert_off ui region _ a _ hf hne, hstat]
  rw [decideStep_otherwise a "" (by simp) (by simp)]
  rfl

/-- Witness for C9: the document for region "lviv" only, polled for region
"kyiv" from the Active state. -/
theorem missing_region_noop_witness :
    ((Json.obj [("lviv", Json.str "full")]).member "kyiv").asString = ""
    ∧ checkAlertsCycle "on.mp3" "off.mp3" 10 "kyiv"
        ⟨"\x7b\"lviv\": \"full\"\x7d",
         ParseOutcome.parsed (Json.obj [("lviv", Json.str "full")])⟩ true
        = Except.ok ⟨true, [], some 10⟩ :=
  missing_region_noop "on.mp3" "off.mp3" 10 "kyiv" true "\x7b\"lviv\": \"full\"\x7d"
    [("lviv", Json.str "full")] (by rfl) (by rfl) (by rfl)

/-- C10: with fewer than two command-line arguments, or when the given config
path cannot be opened, `main` stops on the corresponding error path with exit
status 1 — it never reaches `entersLoop`, so the alert state is neither read
nor written. -/
theorem main_early_exit (argv : List String) (readFile : String → Option Json) :
    (argv.length < 2 →
       main argv readFile = MainResult.usageError
       ∧ MainResult.exitStatus (main argv readFile) = some 1)
    ∧ (∀ prog path rest, argv = prog :: path :: rest → readFile path = none →
       main argv readFile = MainResult.openError
       ∧ MainResult.exitStatus (main argv readFile) = some 1) := by
  constructor
  · intro hlen
    cases argv with
    | nil => exact ⟨rfl, rfl⟩
    | cons p tail =>
      cases tail with
      | nil => exact ⟨rfl, rfl⟩
      | cons q rest =>
        simp only [List.length_cons] at hlen
        omega
  · intro prog path rest heq hread
    subst heq
    exact ⟨by simp [main, hread], by simp [main, hread, MainResult.exitStatus]⟩

/-- Witness for C10 on both early-exit paths: a single-argument invocation,
and a two-argument invocation whose config path opens to nothing. -/
theorem main_early_exit_witness :
    main ["alert_system"] (fun _ => none) = MainResult.usageError
    ∧ main ["alert_system", "missing.json"] (fun _ => none) = MainResult.openError :=
  ⟨((main_early_exit ["alert_system"] (fun _ => none)).1 (by decide)).1,
   ((main_early_exit ["alert_system", "missing.json"] (fun _ => none)).2
      "alert_system" "missing.json" [] rfl rfl).1⟩

end AlertsService
